import Mathlib

/-!
A verification development for `app.py` of the `telegram-info-bot` repository.

The bot is a single Python module built on `python-telegram-bot` and `aiohttp`.
We shallowly embed the pieces the specification talks about:

* the handler functions (`joke_command`, `fact_command`, `fetch_weather_for_city`,
  `weather_command`, `weather_callback`, `news_command`, `quote_command`,
  `define_command`, `generate_ai_reply`, `echo_message`, `self_ping_task`),
  with every outbound HTTP interaction replaced by an explicit "provider
  outcome" argument describing what the network would have done;
* the dispatch performed by `python-telegram-bot` for the handler list
  registered in `main` (`route`);
* the top-level supervision structure of `main` / the `__main__` entry point.

Conventions of the embedding:

* Python strings are Lean `String`s; the Python methods used by the code
  (`str.startswith`, `in`, `str.split(sep, 1)`, `str.strip`) are re-implemented
  on the underlying character lists (`pyStartsWith`, `pyContains`,
  `pySplit1After`, `pyStrip`) so that they compute by kernel reduction.
* numeric JSON fields (latitude, temperature, …) are carried as the strings
  they render to inside Python f-strings, since the code only ever
  interpolates them into text.
* a handler that lets an exception escape (the code has several paths with no
  `try`) is modelled with `Except Unit`: `.error ()` means "an exception
  propagated out of the handler".
* replies and edits sent through the transport are recorded as an `Action`
  list, in program order.
-/

namespace InfoBot

/-! ## Python string primitives -/

/-- Python `s.startswith(pre)`: `pre` is a prefix of `s`. -/
def pyStartsWith (pre s : String) : Bool :=
  pre.data.isPrefixOf s.data

/-- Python `sub in s`: `sub` occurs as a contiguous substring of `s`. -/
def containsSub (sub : List Char) : List Char → Bool
  | [] => sub.isEmpty
  | c :: cs => sub.isPrefixOf (c :: cs) || containsSub sub cs

/-- Python `sub in s` on `String`s. -/
def pyContains (sub s : String) : Bool :=
  containsSub sub.data s.data

/-- Split at the first occurrence of `sep`: returns the parts before and after
it, or `none` when `sep` does not occur. -/
def splitFirst (sep : List Char) : List Char → Option (List Char × List Char)
  | [] => if sep.isEmpty then some ([], []) else none
  | c :: cs =>
    if sep.isPrefixOf (c :: cs) then some ([], (c :: cs).drop sep.length)
    else
      match splitFirst sep cs with
      | some p => some (c :: p.1, p.2)
      | none => none

/-- Python `s.split(sep, 1)[1]`: the text after the first occurrence of `sep`.
The callers in `app.py` only evaluate this after a `startswith(sep)` check, so
the occurrence always exists; in the impossible missing case we return `s`
(Python would raise `IndexError`). -/
def pySplit1After (sep s : String) : String :=
  match splitFirst sep.data s.data with
  | some p => String.mk p.2
  | none => s

/-- Python `s.strip()`: drop leading and trailing whitespace. -/
def pyStrip (s : String) : String :=
  String.mk (((s.data.dropWhile Char.isWhitespace).reverse.dropWhile Char.isWhitespace).reverse)

/-! ## Data model: transport actions and inbound events -/

/-- One inline-keyboard button (`InlineKeyboardButton(text, callback_data=…)`). -/
structure Button where
  text : String
  callback_data : String
deriving DecidableEq

/-- One observable transport interaction performed by a handler, in program
order: `reply_text` (with its optional inline keyboard), `edit_message_text`,
or `callback_query.answer()`. -/
inductive Action
  | sendReply (text : String) (keyboard : Option (List (List Button)))
  | editMessage (text : String)
  | answerCallback
deriving DecidableEq

/-- An inbound Telegram update as classified by the transport:
a `/command` message (text carrying a bot-command entity, split into name and
arguments), a plain text message, or an inline-button callback press. -/
inductive InboundEvent
  | command (name : String) (args : List String)
  | plainText (text : String)
  | callbackPress (payload : String)
deriving DecidableEq

/-- Number of `editMessage` actions in a transcript. -/
def editCount (acts : List Action) : Nat :=
  acts.countP fun a => match a with | .editMessage _ => true | _ => false

/-- Number of `sendReply` actions in a transcript. -/
def sendCount (acts : List Action) : Nat :=
  acts.countP fun a => match a with | .sendReply _ _ => true | _ => false

/-! ## Weather: `fetch_weather_for_city` (app.py lines 93-144)

The helper performs two HTTP calls: a geocoding lookup and, when that
succeeds, a current-conditions lookup.  Each is stubbed by an outcome value.
`.exn` covers `aiohttp` raising on the request or on `.json()` — both sit
inside the `try` block, so both land in the same `except` arm. -/

/-- The first geocoding result used by the code (`geo_data["results"][0]`);
fields mirror the `.get` accesses, with the numeric ones carried as the
strings they render to. -/
structure GeoLoc where
  latitude : Option String
  longitude : Option String
  name : Option String
  country : Option String
deriving DecidableEq

/-- Outcome of the geocoding request.  In `.resp`, `results` is the parsed
`"results"` field: `none` when the JSON is falsy or lacks the key, otherwise
the list (so `some []` is an empty result list). -/
inductive GeoOutcome
  | exn
  | resp (status : Nat) (results : Option (List GeoLoc))
deriving DecidableEq

/-- The parsed `"current_weather"` object; `none` fields are keys `.get`
returns `None` for (rendered as `"None"` by the f-string). -/
structure CurrentWeather where
  temperature : Option String
  windspeed : Option String
  winddirection : Option String
deriving DecidableEq

/-- Outcome of the current-conditions request.  `current = none` models a
falsy or missing `"current_weather"` field. -/
inductive WeatherOutcome
  | exn
  | resp (status : Nat) (current : Option CurrentWeather)
deriving DecidableEq

/-- The success format string of `fetch_weather_for_city` (line 144). -/
def weatherText (name country temp wind windDir : String) : String :=
  "🌤️ Weather in " ++ name ++ ", " ++ country ++ ":\n🌡️ " ++ temp ++
    "°C\n💨 Wind: " ++ wind ++ " km/h (dir " ++ windDir ++ "°)"

/-- Result of `fetch_weather_for_city`, together with which of the two HTTP
requests were actually issued. -/
structure FetchOut where
  text : String
  geoCalled : Bool
  conditionsCalled : Bool
deriving DecidableEq

/-- `name = loc.get("name") or city` (line 120): a missing or empty name
falls back to the (stripped) query string. -/
def locName (loc : GeoLoc) (city : String) : String :=
  match loc.name with
  | some n => if n = "" then city else n
  | none => city

/-- `country = loc.get("country") or ""` (line 121). -/
def locCountry (loc : GeoLoc) : String :=
  match loc.country with
  | some c => if c = "" then "" else c
  | none => ""

/-- `fetch_weather_for_city(city)` with both provider interactions stubbed.
The Python `if status != 200: return failure` guards appear here as
`if status = 200 then continue else failure`. -/
def fetch_weather_for_city (geo : GeoOutcome) (wx : WeatherOutcome) (city : String) : FetchOut :=
  if pyStrip city = "" then ⟨"❌ No city provided.", false, false⟩
  else
    match geo with
    | .exn => ⟨"❌ Couldn't reach geocoding service.", true, false⟩
    | .resp status results =>
      if status = 200 then
        match results with
        | none => ⟨"❌ Couldn't find that city.", true, false⟩
        | some [] => ⟨"❌ Couldn't find that city.", true, false⟩
        | some (loc :: _) =>
          match wx with
          | .exn => ⟨"❌ Couldn't reach weather service.", true, true⟩
          | .resp ws current =>
            if ws = 200 then
              match current with
              | none => ⟨"❌ Weather data missing.", true, true⟩
              | some cw =>
                ⟨weatherText (locName loc (pyStrip city)) (locCountry loc)
                  (cw.temperature.getD "None") (cw.windspeed.getD "None")
                  (cw.winddirection.getD "None"), true, true⟩
            else ⟨"❌ Couldn't fetch weather right now.", true, true⟩
      else ⟨"❌ Couldn't find that city (geocoding failed).", true, false⟩

/-- The geocoding-stage failure classification of `fetch_weather_for_city`
(lines 104-114): `some m` when the first stage fails with message `m`,
`none` when it yields a usable location. -/
def geoFailureText : GeoOutcome → Option String
  | .exn => some "❌ Couldn't reach geocoding service."
  | .resp status results =>
    if status = 200 then
      match results with
      | none => some "❌ Couldn't find that city."
      | some [] => some "❌ Couldn't find that city."
      | some (_ :: _) => none
    else some "❌ Couldn't find that city (geocoding failed)."

/-- The seven fixed failure strings `fetch_weather_for_city` can return. -/
def weatherFailureTexts : List String :=
  ["❌ No city provided.",
   "❌ Couldn't reach geocoding service.",
   "❌ Couldn't find that city (geocoding failed).",
   "❌ Couldn't find that city.",
   "❌ Couldn't reach weather service.",
   "❌ Couldn't fetch weather right now.",
   "❌ Weather data missing."]

/-- `s` is an instance of the weather success format. -/
def weatherTextIsSuccess (s : String) : Prop :=
  ∃ n c te w d, s = weatherText n c te w d

/-! ## Weather command and callback (app.py lines 30-39, 147-195) -/

/-- `SUGGESTED_CITIES` (lines 30-39). -/
def SUGGESTED_CITIES : List String :=
  ["Manila", "Quezon City", "Cebu City", "Davao City", "Baguio",
   "Iloilo City", "Bacolod", "Zamboanga City", "Cagayan de Oro",
   "Taguig", "Pasig", "Makati", "General Santos", "Tarlac",
   "Batangas City", "San Fernando", "Olongapo", "Lucena",
   "Legazpi", "Naga", "Tacloban", "Butuan", "Surigao",
   "Tagbilaran", "Puerto Princesa", "Roxas City", "Cotabato City",
   "Dumaguete", "San Pablo", "Dasmariñas", "Santa Rosa", "Lipa",
   "Tuguegarao", "Iligan", "Pagadian", "Dipolog", "Calbayog"]

/-- The button payload for a suggested city (`f"city:{city}"`, line 163). -/
def encodeCityPayload (city : String) : String := "city:" ++ city

/-- The keyboard built by `weather_command` when no argument is given
(lines 160-170): cities two to a row, then a lone manual-entry button. -/
def weatherKeyboard : List (List Button) :=
  let step := fun (acc : List (List Button) × List Button) (city : String) =>
    let row := acc.2 ++ [⟨city, encodeCityPayload city⟩]
    if row.length = 2 then (acc.1 ++ [row], []) else (acc.1, row)
  let built := SUGGESTED_CITIES.foldl step ([], [])
  let keyboard := if built.2 ≠ [] then built.1 ++ [built.2] else built.1
  keyboard ++ [[⟨"Enter city manually", "manual"⟩]]

/-- The prompt sent alongside the picker keyboard (lines 173-176). -/
def pickerPrompt : String :=
  "🌤️ Pick a city to get current weather, or choose 'Enter city manually' to type a city name."

/-- `weather_command` (lines 147-176): with arguments, join them with spaces
and resolve through `fetch_weather_for_city`; without, send the picker.  The
boolean records whether any provider request was issued. -/
def weather_command (geo : GeoOutcome) (wx : WeatherOutcome) (args : List String) :
    List Action × Bool :=
  match args with
  | _ :: _ =>
    let city := String.intercalate " " args
    let r := fetch_weather_for_city geo wx city
    ([Action.sendReply r.text none], r.geoCalled || r.conditionsCalled)
  | [] =>
    ([Action.sendReply pickerPrompt (some weatherKeyboard)], false)

/-- `weather_callback` (lines 179-195): acknowledge the press, then branch on
the payload.  A `city:` payload produces an interim "Fetching…" edit followed
by a second edit carrying the fetch result. -/
def weather_callback (geo : GeoOutcome) (wx : WeatherOutcome) (data : String) : List Action :=
  Action.answerCallback ::
    (if pyStartsWith "city:" data then
      let city := pySplit1After "city:" data
      [Action.editMessage ("🔎 Fetching weather for " ++ city ++ "..."),
       Action.editMessage (fetch_weather_for_city geo wx city).text]
    else if data = "manual" then
      [Action.editMessage "✍️ Please type `/weather <city>` (for example: `/weather Manila`)."]
    else
      [Action.editMessage "❌ Unknown action."])

/-! ## Simple provider commands (app.py lines 42-90, 197-264)

`joke_command`, `fact_command`, `news_command` and `quote_command` wrap their
HTTP call in no `try` at all, so a connection failure, a timeout, a `.json()`
parse failure or a missing JSON key raises out of the handler; only a non-200
status is mapped to the apology string.  `define_command` guards only the
field accesses.  An escaped exception is `.error ()`. -/

/-- Stubbed outcome of one `session.get`: `.connExn` when the request itself
(or reading the response) raises; `.resp status json` when a status arrives,
with `json = none` when `.json()` raises and `some body` otherwise. -/
inductive GetOutcome (α : Type)
  | connExn
  | resp (status : Nat) (json : Option α)
deriving DecidableEq

/-- Joke JSON body: `none` models a body without the `"setup"`/`"punchline"`
keys (Python raises `KeyError`); otherwise the two fields. -/
def JokeBody : Type := Option (String × String)

/-- `joke_command` (lines 66-77). -/
def joke_command (r : GetOutcome JokeBody) : Except Unit (List Action) :=
  match r with
  | .connExn => .error ()
  | .resp status json =>
    if status = 200 then
      match json with
      | none => .error ()
      | some none => .error ()
      | some (some sp) =>
        .ok [Action.sendReply ("😂 " ++ sp.1 ++ "\n\n👉 " ++ sp.2) none]
    else .ok [Action.sendReply "❌ Couldn't fetch a joke right now." none]

/-- Fact JSON body: `none` models a body without the `"text"` key. -/
def FactBody : Type := Option String

/-- `fact_command` (lines 79-90). -/
def fact_command (r : GetOutcome FactBody) : Except Unit (List Action) :=
  match r with
  | .connExn => .error ()
  | .resp status json =>
    if status = 200 then
      match json with
      | none => .error ()
      | some none => .error ()
      | some (some text) => .ok [Action.sendReply ("💡 " ++ text) none]
    else .ok [Action.sendReply "❌ Couldn't fetch a fact right now." none]

/-- One news article as accessed by the code: `a['title']` (a `KeyError`,
hence `Option`) and `a.get('url','')`. -/
structure Article where
  title : Option String
  url : String
deriving DecidableEq

/-- News JSON body: the `"articles"` list after `data.get("articles", [])`. -/
def NewsBody : Type := List Article

/-- `news_command` (lines 198-222).  The headline list comprehension indexes
`a['title']`, so a missing title on one of the first three articles raises. -/
def news_command (apiKey : Option String) (r : GetOutcome NewsBody) :
    Except Unit (List Action) :=
  match apiKey with
  | none => .ok [Action.sendReply "⚠️ NEWS_API_KEY not set in environment." none]
  | some _ =>
    match r with
    | .connExn => .error ()
    | .resp status json =>
      if status = 200 then
        match json with
        | none => .error ()
        | some articles =>
          match articles with
          | [] => .ok [Action.sendReply "😶 No news found." none]
          | _ :: _ =>
            if (articles.take 3).all (fun a => a.title.isSome) then
              .ok [Action.sendReply
                ("📰 Top Headlines:\n\n" ++
                  String.intercalate "\n\n"
                    ((articles.take 3).map
                      (fun a => "🗞️ " ++ a.title.getD "" ++ "\n🔗 " ++ a.url))) none]
            else .error ()
      else .ok [Action.sendReply "❌ Couldn't fetch news right now." none]

/-- Quote JSON body: `none` models an empty list (`data[0]` raises
`IndexError`); otherwise the `"q"`/`"a"` fields of the first element, with a
missing field defaulting to `""` via `.get`. -/
def QuoteBody : Type := Option (String × String)

/-- `quote_command` (lines 225-240). -/
def quote_command (r : GetOutcome QuoteBody) : Except Unit (List Action) :=
  match r with
  | .connExn => .error ()
  | .resp status json =>
    if status = 200 then
      match json with
      | none => .error ()
      | some none => .error ()
      | some (some qa) =>
        .ok [Action.sendReply ("💬 \"" ++ qa.1 ++ "\"\n— " ++ qa.2) none]
    else .ok [Action.sendReply "❌ Couldn't fetch a quote right now." none]

/-- Dictionary JSON body: the nested
`data[0]["meanings"][0]["definitions"][0]["definition"]` access, `none` when
any step would raise (that access is inside `try`, unlike `.json()`). -/
def DefineBody : Type := Option String

/-- `define_command` (lines 243-264). -/
def define_command (r : GetOutcome DefineBody) (args : List String) :
    Except Unit (List Action) :=
  match args with
  | [] => .ok [Action.sendReply "📘 Usage: /define <word>" none]
  | word :: _ =>
    match r with
    | .connExn => .error ()
    | .resp status json =>
      if status = 200 then
        match json with
        | none => .error ()
        | some meaning =>
          match meaning with
          | some m =>
            .ok [Action.sendReply ("📖 Definition of " ++ word ++ ":\n" ++ m) none]
          | none => .ok [Action.sendReply "❌ Couldn't parse definition result." none]
      else .ok [Action.sendReply "❌ Word not found." none]

/-- `start` (lines 42-48): a fixed greeting. -/
def startText : String :=
  "👋 Hello! I'm AiiMBot – your friendly info assistant.\n\nType /help to see what I can do.\n\n——\n_Developed by Aii_"

/-- `help_command` (lines 50-63): a fixed help message. -/
def helpText : String :=
  "🧠 Available Commands:\n/start - Start the bot\n/help - Show this help message\n/joke - Get a random programming joke\n/fact - Get a random fact\n/weather <city> - Get current weather info\n/news - Get the latest news\n/quote - Get an inspirational quote\n/define <word> - Look up a word definition\n\n💬 You can also just chat with me naturally — I'll reply using AI!"

/-! ## AI chat (app.py lines 267-319)

`generate_ai_reply` wraps its whole request — including `.json()` and the
`data["choices"][0]["message"]` access — in one `try`, so it is total: every
failure becomes one of three fixed strings. -/

/-- Stubbed outcome of the Mistral call.  `.noApiKey` is `AI_API_KEY` unset;
`.exn` is anything raising inside the `try` (connection, timeout, parse,
missing key); `.resp status content` is a response whose
`["message"].get("content")` is `content`. -/
inductive AiOutcome
  | noApiKey
  | exn
  | resp (status : Nat) (content : Option String)
deriving DecidableEq

/-- `generate_ai_reply` (lines 267-304).  On success the code computes
`(… .get("content") or "").strip()`; `x or ""` is the identity on strings, so
this is `pyStrip (content.getD "")`. -/
def generate_ai_reply (ai : AiOutcome) (_message : String) : String :=
  match ai with
  | .noApiKey => "⚠️ AI service is not configured yet."
  | .exn => "❌ I couldn't connect to my brain. Please try again later."
  | .resp status content =>
    if status = 200 then pyStrip (content.getD "")
    else "⚠️ I'm having trouble thinking right now. Try again later!"

/-- The fixed non-success strings of `generate_ai_reply`. -/
def aiApologies : List String :=
  ["⚠️ AI service is not configured yet.",
   "⚠️ I'm having trouble thinking right now. Try again later!",
   "❌ I couldn't connect to my brain. Please try again later."]

/-- `echo_message` (lines 306-319): strip the text, skip anything that still
looks like a command, otherwise reply with the AI answer for the stripped
text.  (The `update.message.text or ""` guard is the identity on the text the
plain-text route carries.) -/
def echo_message (ai : AiOutcome) (text : String) : List Action :=
  let user_text := pyStrip text
  if pyStartsWith "/" user_text then []
  else [Action.sendReply (generate_ai_reply ai user_text) none]

/-! ## Keepalive pinger (app.py lines 339-354) -/

/-- What `self_ping_task` does after its initial 30-second sleep. -/
inductive SelfPingFate
  | warnAndReturn
  | pingLoop
deriving DecidableEq

/-- `self_ping_task` (lines 339-354): build
`url = RENDER_EXTERNAL_URL + "/health"` (an unset variable reads as `""`),
then `if not url or "http" not in url:` warn and return, else enter the
forever ping loop. -/
def self_ping_task (renderExternalUrl : String) : SelfPingFate :=
  let url := renderExternalUrl ++ "/health"
  if url = "" || !pyContains "http" url then .warnAndReturn
  else .pingLoop

/-- Modelled from the spec: a configured value "forms an http URL" when it
starts with the http or https scheme.  This is the spec-side reading of the
guard, to be compared with the code's substring check. -/
def specFormsHttpUrl (v : String) : Bool :=
  pyStartsWith "http://" v || pyStartsWith "https://" v

/-! ## Startup and supervision (app.py lines 23-27, 397-423)

`main` gathers the three tasks inside `try … except KeyboardInterrupt …
finally: cleanup`, and the `__main__` block wraps `asyncio.run(main())` in
another `try … except KeyboardInterrupt`.  No other exception is caught
anywhere, and nothing restarts a failed task. -/

/-- The module-level `BOT_TOKEN` check (lines 24-27): an empty or missing
token raises `ValueError` before anything starts. -/
def startupCheck (botToken : String) : Except String Unit :=
  if botToken = "" then .error "❌ BOT_TOKEN not found in environment variables."
  else .ok ()

/-- How the `asyncio.gather` over the three tasks ends: it never returns while
the tasks run; otherwise it re-raises the first exception — a
`KeyboardInterrupt` or any other error (e.g. a duplicate-poller `Conflict`
escaping the polling task). -/
inductive GatherOutcome
  | keyboardInterrupt
  | taskError
deriving DecidableEq

/-- The fate of the whole process for a given gather outcome. -/
inductive ProcessFate
  | stoppedGracefully
  | exitedWithError
deriving DecidableEq

/-- `main`'s `try/except KeyboardInterrupt/finally` plus the `__main__`
wrapper (lines 407-416, 419-423): returns whether the `finally` cleanup ran
and how the process ends. -/
def entrypoint (g : GatherOutcome) : Bool × ProcessFate :=
  match g with
  | .keyboardInterrupt => (true, .stoppedGracefully)
  | .taskError => (true, .exitedWithError)

/-! ## Routing (app.py lines 363-373)

`main` registers eight `CommandHandler`s, one
`MessageHandler(filters.TEXT & ~filters.COMMAND, echo_message)` and one
`CallbackQueryHandler(weather_callback, pattern="^(city:|manual)")`.
`python-telegram-bot` gives each update to the first matching handler:

* a `CommandHandler` matches exactly the command messages carrying its name;
* the message handler matches text messages but — because of
  `~filters.COMMAND` — not messages whose text carries a bot-command entity,
  so a command message with an unregistered name matches *nothing*;
* the callback handler matches callback presses whose data matches the
  anchored regex, i.e. payloads starting with `city:` or with `manual`.

`Handler.noOp` stands for "no registered handler matches: the update is
dropped and nothing is sent". -/

/-- The handler selected for an update (`startH`, `helpH`, `defineH` carry a
suffix only to keep the constructor names unambiguous in Lean). -/
inductive Handler
  | startH | helpH | joke | fact | weather | news | quote | defineH
  | echo | weatherCallback | noOp
deriving DecidableEq

/-- The `CommandHandler` registrations of `main` (lines 363-370), in order. -/
def routeTable : List (String × Handler) :=
  [("start", .startH), ("help", .helpH), ("joke", .joke), ("fact", .fact),
   ("weather", .weather), ("news", .news), ("quote", .quote), ("define", .defineH)]

/-- Look a command name up among the registered `CommandHandler`s. -/
def lookupCmd (name : String) : Option Handler :=
  (routeTable.find? fun p => p.1 == name).map (·.2)

/-- The dispatch `python-telegram-bot` performs for the handler registrations
of `main`. -/
def route : InboundEvent → Handler
  | .command name _ =>
    match lookupCmd name with
    | some h => h
    | none => .noOp
  | .plainText _ => .echo
  | .callbackPress payload =>
    if pyStartsWith "city:" payload || pyStartsWith "manual" payload then .weatherCallback
    else .noOp

/-! ## One-event pipeline -/

/-- All provider/configuration stubs an event's handling may consult.  A fixed
value of this structure is a deterministic provider environment. -/
structure Stubs where
  geo : GeoOutcome
  wx : WeatherOutcome
  ai : AiOutcome
  joke : GetOutcome JokeBody
  fact : GetOutcome FactBody
  news : GetOutcome NewsBody
  newsApiKey : Option String
  quote : GetOutcome QuoteBody
  defineR : GetOutcome DefineBody

/-- Run the handler `route` selects on the event, producing the transport
transcript (or `.error ()` when an exception escapes the handler). -/
def handleEvent (st : Stubs) : InboundEvent → Except Unit (List Action)
  | .command name args =>
    match lookupCmd name with
    | some .startH => .ok [Action.sendReply startText none]
    | some .helpH => .ok [Action.sendReply helpText none]
    | some .joke => joke_command st.joke
    | some .fact => fact_command st.fact
    | some .weather => .ok (weather_command st.geo st.wx args).1
    | some .news => news_command st.newsApiKey st.news
    | some .quote => quote_command st.quote
    | some .defineH => define_command st.defineR args
    | some _ => .ok []
    | none => .ok []
  | .plainText text => .ok (echo_message st.ai text)
  | .callbackPress payload =>
    if pyStartsWith "city:" payload || pyStartsWith "manual" payload then
      .ok (weather_callback st.geo st.wx payload)
    else .ok []

/-- One concrete deterministic provider environment (a stub with fixed
responses), used to instantiate universally quantified statements. -/
def sampleStubs : Stubs where
  geo := .resp 200 (some [⟨some "14.6", some "121.0", some "Manila", some "Philippines"⟩])
  wx := .resp 200 (some ⟨some "30.1", some "7.2", some "120"⟩)
  ai := .resp 200 (some "Hello there!")
  joke := .resp 200 (some (some ("s", "p")))
  fact := .resp 200 (some (some "f"))
  news := .resp 200 (some [⟨some "t", "u"⟩])
  newsApiKey := some "k"
  quote := .resp 200 (some (some ("q", "a")))
  defineR := .resp 200 (some (some "m"))

/-! ## Helper lemmas -/

lemma isPrefixOf_append_self (l t : List Char) : l.isPrefixOf (l ++ t) = true := by
  induction l with
  | nil => simp
  | cons a as ih => simp [List.cons_append, List.isPrefixOf_cons₂, ih]

lemma splitFirst_cons_self (a : Char) (as rest : List Char) :
    splitFirst (a :: as) ((a :: as) ++ rest) = some ([], rest) := by
  have h := isPrefixOf_append_self (a :: as) rest
  simp only [List.cons_append] at h
  simp [splitFirst, h, List.drop_left]

lemma pyStartsWith_append_self (p c : String) : pyStartsWith p (p ++ c) = true :=
  isPrefixOf_append_self p.data c.data

lemma pySplit1After_city (c : String) : pySplit1After "city:" ("city:" ++ c) = c := by
  have h : splitFirst "city:".data ("city:" ++ c).data = some ([], c.data) :=
    splitFirst_cons_self 'c' ['i', 't', 'y', ':'] c.data
  unfold pySplit1After
  rw [h]

lemma weatherText_head (n c te w d : String) :
    (weatherText n c te w d).data.head? = some '🌤' := rfl

lemma failure_not_success (s : String) (hf : s ∈ weatherFailureTexts) :
    ¬ weatherTextIsSuccess s := by
  rintro ⟨n, c, te, w, d, rfl⟩
  have h2 : (weatherText n c te w d).data.head? = some '❌' := by
    simp only [weatherFailureTexts, List.mem_cons, List.not_mem_nil, or_false] at hf
    rcases hf with h | h | h | h | h | h | h <;> rw [h] <;> rfl
  rw [weatherText_head] at h2
  exact absurd h2 (by decide)

lemma success_not_failure (n c te w d : String) :
    weatherText n c te w d ∉ weatherFailureTexts := fun hf =>
  failure_not_success _ hf ⟨n, c, te, w, d, rfl⟩

/-- Every text `fetch_weather_for_city` can produce is exactly one of: a fixed
failure string, or an instance of the weather success format. -/
lemma fetch_text_classified (geo : GeoOutcome) (wx : WeatherOutcome) (city : String) :
    ((fetch_weather_for_city geo wx city).text ∈ weatherFailureTexts ∧
      ¬ weatherTextIsSuccess (fetch_weather_for_city geo wx city).text) ∨
    (weatherTextIsSuccess (fetch_weather_for_city geo wx city).text ∧
      (fetch_weather_for_city geo wx city).text ∉ weatherFailureTexts) := by
  by_cases h0 : pyStrip city = ""
  · simp only [fetch_weather_for_city, if_pos h0]
    exact Or.inl ⟨by decide, failure_not_success _ (by decide)⟩
  · rcases geo with _ | ⟨gs, results⟩
    · simp only [fetch_weather_for_city, if_neg h0]
      exact Or.inl ⟨by decide, failure_not_success _ (by decide)⟩
    · by_cases hgs : gs = 200
      · rcases results with _ | ⟨_ | ⟨loc, rest⟩⟩
        · simp only [fetch_weather_for_city, if_neg h0, if_pos hgs]
          exact Or.inl ⟨by decide, failure_not_success _ (by decide)⟩
        · simp only [fetch_weather_for_city, if_neg h0, if_pos hgs]
          exact Or.inl ⟨by decide, failure_not_success _ (by decide)⟩
        · rcases wx with _ | ⟨ws, current⟩
          · simp only [fetch_weather_for_city, if_neg h0, if_pos hgs]
            exact Or.inl ⟨by decide, failure_not_success _ (by decide)⟩
          · by_cases hws : ws = 200
            · rcases current with _ | ⟨cw⟩
              · simp only [fetch_weather_for_city, if_neg h0, if_pos hgs, if_pos hws]
                exact Or.inl ⟨by decide, failure_not_success _ (by decide)⟩
              · simp only [fetch_weather_for_city, if_neg h0, if_pos hgs, if_pos hws]
                exact Or.inr ⟨⟨_, _, _, _, _, rfl⟩, success_not_failure _ _ _ _ _⟩
            · simp only [fetch_weather_for_city, if_neg h0, if_pos hgs, if_neg hws]
              exact Or.inl ⟨by decide, failure_not_success _ (by decide)⟩
      · simp only [fetch_weather_for_city, if_neg h0, if_neg hgs]
        exact Or.inl ⟨by decide, failure_not_success _ (by decide)⟩

/-- Every reply `generate_ai_reply` can produce is either one of its three
fixed apology strings, or the stripped provider content of a 200 response. -/
lemma generate_ai_reply_classified (ai : AiOutcome) (msg : String) :
    generate_ai_reply ai msg ∈ aiApologies ∨
    ∃ content, ai = .resp 200 content ∧
      generate_ai_reply ai msg = pyStrip (content.getD "") := by
  rcases ai with _ | _ | ⟨s, content⟩
  · exact Or.inl (show "⚠️ AI service is not configured yet." ∈ aiApologies by decide)
  · exact Or.inl
      (show "❌ I couldn't connect to my brain. Please try again later." ∈ aiApologies by decide)
  · by_cases hs : s = 200
    · subst hs
      exact Or.inr ⟨content, rfl, by simp [generate_ai_reply]⟩
    · refine Or.inl ?_
      simp only [generate_ai_reply, if_neg hs]
      decide

/-! ## Claims -/

/-- C2 counterexample: the spec says an unregistered command name routes to
the default AI-chat handler, but `MessageHandler(filters.TEXT &
~filters.COMMAND, echo_message)` excludes command messages, so a command
message with an unknown name matches no handler at all and nothing is sent. -/
theorem c2_counterexample :
    route (InboundEvent.command "frobnicate" []) ≠ Handler.echo ∧
    route (InboundEvent.command "frobnicate" []) = Handler.noOp := by
  exact ⟨by decide, rfl⟩

/-- C2 (amended): every registered command name routes to its registered
handler; a command whose name is not registered matches no handler (NoOp) —
it is *not* forwarded to the default AI-chat handler. -/
theorem c2_amended :
    (∀ name h args, (name, h) ∈ routeTable → route (.command name args) = h) ∧
    (∀ name args, lookupCmd name = none → route (.command name args) = .noOp) := by
  constructor
  · intro name h args hm
    fin_cases hm <;> rfl
  · intro name args hnone
    simp only [route, hnone]

/-- C2 witness: `/joke` routes to the joke handler; the unregistered
`/frobnicate` routes to no handler. -/
theorem c2_witness :
    (("joke", Handler.joke) ∈ routeTable ∧
      route (InboundEvent.command "joke" []) = Handler.joke) ∧
    (lookupCmd "frobnicate" = none ∧
      route (InboundEvent.command "frobnicate" []) = Handler.noOp) :=
  ⟨⟨by decide, c2_amended.1 "joke" Handler.joke [] (by decide)⟩,
   ⟨by decide, c2_amended.2 "frobnicate" [] (by decide)⟩⟩

/-- C3 counterexample: a connection-level provider failure (network error or
timeout) inside `joke_command` is not turned into the apology string — there
is no `try` around the request, so the exception escapes the handler. -/
theorem c3_counterexample :
    joke_command GetOutcome.connExn = Except.error () := rfl

/-- C3 (amended): in `joke_command` and `fact_command` only a non-200 HTTP
status is mapped to the handler's fixed apology string; connection errors,
timeouts and malformed payloads raise out of the handler instead of being
recovered locally. -/
theorem c3_amended (s : Nat) (jb : Option JokeBody) (fb : Option FactBody)
    (hs : s ≠ 200) :
    joke_command (.resp s jb) =
      .ok [Action.sendReply "❌ Couldn't fetch a joke right now." none] ∧
    fact_command (.resp s fb) =
      .ok [Action.sendReply "❌ Couldn't fetch a fact right now." none] ∧
    joke_command .connExn = .error () ∧
    fact_command .connExn = .error () := by
  refine ⟨?_, ?_, rfl, rfl⟩ <;> simp [joke_command, fact_command, hs]

/-- C3 witness: a 500 status yields the joke apology. -/
theorem c3_witness :
    joke_command (GetOutcome.resp 500 none) =
      .ok [Action.sendReply "❌ Couldn't fetch a joke right now." none] :=
  (c3_amended 500 none none (by decide)).1

/-- C4 counterexample: an uncaught error in any gathered task (for instance a
duplicate-poller `Conflict` escaping the polling task) propagates through
`asyncio.gather`; `main` only catches `KeyboardInterrupt`, so after the
`finally` cleanup the process exits with the error — there is no
backoff-and-restart. -/
theorem c4_counterexample :
    entrypoint GatherOutcome.taskError = (true, ProcessFate.exitedWithError) := rfl

/-- C4 (amended): an uncaught internal task error terminates the process
(after the `finally` cleanup); only `KeyboardInterrupt` is handled
gracefully; a missing `BOT_TOKEN` is a fatal startup error and any non-empty
token passes the startup check. -/
theorem c4_amended :
    entrypoint GatherOutcome.taskError = (true, ProcessFate.exitedWithError) ∧
    entrypoint GatherOutcome.keyboardInterrupt = (true, ProcessFate.stoppedGracefully) ∧
    startupCheck "" = .error "❌ BOT_TOKEN not found in environment variables." ∧
    ∀ t : String, t ≠ "" → startupCheck t = .ok () := by
  refine ⟨rfl, rfl, rfl, ?_⟩
  intro t ht
  simp [startupCheck, ht]

/-- C4 witness: a present token passes the startup check. -/
theorem c4_witness : startupCheck "token" = .ok () :=
  c4_amended.2.2.2 "token" (by decide)

/-- C5 counterexample: a whitespace-only message is *not* NoOp — the stripped
(empty) text is forwarded to the AI provider and its answer is sent. -/
theorem c5_counterexample :
    echo_message (AiOutcome.resp 200 (some "Hello!")) "   " =
      [Action.sendReply "Hello!" none] ∧
    echo_message (AiOutcome.resp 200 (some "Hello!")) "   " ≠ [] := by
  exact ⟨rfl, by decide⟩

/-- C5 (amended): `echo_message` produces NoOp exactly when the stripped text
still begins with the command prefix `/`; every other text — including empty
or whitespace-only text — is stripped (not forwarded verbatim) and answered
with exactly one reply, whose text is the provider's stripped content on a
200 response and one of the fixed apology strings otherwise. -/
theorem c5_amended (ai : AiOutcome) (text : String) :
    (echo_message ai text = [] ↔ pyStartsWith "/" (pyStrip text) = true) ∧
    (pyStartsWith "/" (pyStrip text) = false →
      echo_message ai text =
        [Action.sendReply (generate_ai_reply ai (pyStrip text)) none] ∧
      (generate_ai_reply ai (pyStrip text) ∈ aiApologies ∨
        ∃ content, ai = .resp 200 content ∧
          generate_ai_reply ai (pyStrip text) = pyStrip (content.getD ""))) := by
  constructor
  · by_cases h : pyStartsWith "/" (pyStrip text) = true <;> simp [echo_message, h]
  · intro h
    exact ⟨by simp [echo_message, h], generate_ai_reply_classified ai (pyStrip text)⟩

/-- C5 witness: a non-command text produces exactly one AI reply. -/
theorem c5_witness :
    echo_message AiOutcome.exn "  hi  " =
      [Action.sendReply (generate_ai_reply AiOutcome.exn (pyStrip "  hi  ")) none] :=
  ((c5_amended AiOutcome.exn "  hi  ").2 (by decide)).1

/-- C6: for a non-empty (after stripping) city argument, whenever the
geocoding stage fails — unreachable service, non-200 status, or an absent or
empty result list — `fetch_weather_for_city` returns exactly the
corresponding failure message and never issues the second-stage
current-conditions request. -/
theorem c6_geo_failure_skips_conditions (geo : GeoOutcome) (wx : WeatherOutcome)
    (city m : String) (hc : pyStrip city ≠ "") (hf : geoFailureText geo = some m) :
    fetch_weather_for_city geo wx city = ⟨m, true, false⟩ := by
  rcases geo with _ | ⟨gs, results⟩
  · simp only [geoFailureText, Option.some.injEq] at hf
    subst hf
    simp [fetch_weather_for_city, hc]
  · by_cases hgs : gs = 200
    · rcases results with _ | ⟨_ | ⟨loc, rest⟩⟩
      · simp only [geoFailureText, if_pos hgs, Option.some.injEq] at hf
        subst hf
        simp [fetch_weather_for_city, hc, hgs]
      · simp only [geoFailureText, if_pos hgs, Option.some.injEq] at hf
        subst hf
        simp [fetch_weather_for_city, hc, hgs]
      · simp only [geoFailureText, if_pos hgs] at hf
        exact absurd hf (by simp)
    · simp only [geoFailureText, if_neg hgs, Option.some.injEq] at hf
      subst hf
      simp [fetch_weather_for_city, hc, hgs]

/-- C6 witness: an unreachable geocoding service for "Manila" yields the
geocoding failure text with no conditions request. -/
theorem c6_witness :
    fetch_weather_for_city GeoOutcome.exn WeatherOutcome.exn "Manila" =
      ⟨"❌ Couldn't reach geocoding service.", true, false⟩ :=
  c6_geo_failure_skips_conditions GeoOutcome.exn WeatherOutcome.exn "Manila" _
    (by decide) rfl

set_option maxRecDepth 8192 in
/-- C7: `weather_command` with zero arguments issues no provider request and
sends one reply whose keyboard flattens to exactly one button per suggested
city (labelled with the city, payload `city:<city>`) followed by exactly one
manual-entry button. -/
theorem c7_weather_picker (geo : GeoOutcome) (wx : WeatherOutcome) :
    weather_command geo wx [] =
      ([Action.sendReply pickerPrompt (some weatherKeyboard)], false) ∧
    weatherKeyboard.flatten =
      SUGGESTED_CITIES.map (fun c => ⟨c, encodeCityPayload c⟩) ++
        [⟨"Enter city manually", "manual"⟩] ∧
    weatherKeyboard.flatten.length = SUGGESTED_CITIES.length + 1 := by
  refine ⟨rfl, by decide, by decide⟩

/-- C8 counterexample: the spec says a configured value that does not form an
http URL makes the pinger warn and return, but the code only checks for the
substring `"http"` — the non-URL value `"zhttpz"` contains it, so the task
enters the ping loop. -/
theorem c8_counterexample :
    specFormsHttpUrl "zhttpz" = false ∧
    self_ping_task "zhttpz" = SelfPingFate.pingLoop := ⟨rfl, rfl⟩

/-- C8 (amended): `self_ping_task` warns and returns right after its initial
delay exactly when `value ++ "/health"` does not contain the substring
`"http"`; in particular an unset variable (empty value) returns immediately,
but any value containing `"http"` anywhere — an http URL or not — enters the
ping loop. -/
theorem c8_amended (v : String) :
    (self_ping_task v = SelfPingFate.warnAndReturn ↔
      pyContains "http" (v ++ "/health") = false) ∧
    self_ping_task "" = SelfPingFate.warnAndReturn := by
  refine ⟨?_, rfl⟩
  have hne : v ++ "/health" ≠ "" := by
    intro h
    have h3 : v.data ++ "/health".data = ([] : List Char) := congrArg String.data h
    exact absurd (List.append_eq_nil.mp h3).2 (by decide)
  rcases Bool.eq_false_or_eq_true (pyContains "http" (v ++ "/health")) with hcon | hcon <;>
    simp [self_ping_task, hne, hcon]

/-- C8 witness: the unset case warns and returns. -/
theorem c8_witness : self_ping_task "" = SelfPingFate.warnAndReturn :=
  (c8_amended "").2

/-- C9: event handling is deterministic — the code keeps no mutable state
between events and every provider interaction is a function of the stubbed
provider environment, so handling the same event twice under one
deterministic provider environment yields identical transcripts. -/
theorem c9_deterministic_replay (st : Stubs) (e₁ e₂ : InboundEvent) (h : e₁ = e₂) :
    handleEvent st e₁ = handleEvent st e₂ := by rw [h]

/-- C9 witness: replaying `/weather Manila` under the sample stub
environment. -/
theorem c9_witness :
    handleEvent sampleStubs (InboundEvent.command "weather" ["Manila"]) =
      handleEvent sampleStubs (InboundEvent.command "weather" ["Manila"]) :=
  c9_deterministic_replay sampleStubs _ _ rfl

/-- C10: encoding a city as the button payload `city:<city>` and decoding it
in `weather_callback` by splitting on the first occurrence of `city:`
returns exactly the original city, and the callback's final edit carries the
weather fetched for exactly that city. -/
theorem c10_payload_roundtrip (geo : GeoOutcome) (wx : WeatherOutcome) (c : String) :
    pySplit1After "city:" (encodeCityPayload c) = c ∧
    (weather_callback geo wx (encodeCityPayload c)).getLast? =
      some (Action.editMessage (fetch_weather_for_city geo wx c).text) := by
  refine ⟨pySplit1After_city c, ?_⟩
  unfold weather_callback encodeCityPayload
  rw [show pyStartsWith "city:" ("city:" ++ c) = true from pyStartsWith_append_self "city:" c]
  simp [pySplit1After_city]

/-- C1 counterexample: a city-selection callback performs *two*
`edit_message_text` calls — the interim "Fetching weather for …" edit and the
final result edit — not exactly one as the spec states. -/
theorem c1_counterexample :
    editCount (weather_callback GeoOutcome.exn WeatherOutcome.exn "city:Manila") = 2 := by
  decide

/-- C1 (amended): for every city-selection payload the callback handler sends
no new reply and performs exactly two edits (an interim progress edit
followed by the final one); the final edit's text is the
`fetch_weather_for_city` result for the decoded city, and that text is either
one of the fixed failure strings or an instance of the weather success format
— never both, never neither. -/
theorem c1_amended (geo : GeoOutcome) (wx : WeatherOutcome) (data : String)
    (h : pyStartsWith "city:" data = true) :
    sendCount (weather_callback geo wx data) = 0 ∧
    editCount (weather_callback geo wx data) = 2 ∧
    (weather_callback geo wx data).getLast? =
      some (Action.editMessage
        (fetch_weather_for_city geo wx (pySplit1After "city:" data)).text) ∧
    (((fetch_weather_for_city geo wx (pySplit1After "city:" data)).text ∈
          weatherFailureTexts ∧
        ¬ weatherTextIsSuccess
          (fetch_weather_for_city geo wx (pySplit1After "city:" data)).text) ∨
      (weatherTextIsSuccess
          (fetch_weather_for_city geo wx (pySplit1After "city:" data)).text ∧
        (fetch_weather_for_city geo wx (pySplit1After "city:" data)).text ∉
          weatherFailureTexts)) := by
  refine ⟨?_, ?_, ?_, fetch_text_classified geo wx _⟩ <;>
    simp [weather_callback, h, sendCount, editCount, List.countP_cons, List.countP_nil]

/-- C1 witness: the `city:Manila` payload under a failing provider. -/
theorem c1_witness :
    sendCount (weather_callback GeoOutcome.exn WeatherOutcome.exn "city:Manila") = 0 :=
  (c1_amended GeoOutcome.exn WeatherOutcome.exn "city:Manila" (by decide)).1

end InfoBot
